import Mathlib

/-!
Verification of the Rehab decision engine against its specification.

This file gives a shallow embedding, in Lean 4, of the decision logic of the
Rehab repository (files `contraindication_checker.py`, `rts_testing.py`,
`recovery_predictions.py`, `rehabilitation_logic.py`) and settles a list of
claims about that logic.

Modelling conventions:
* Python floats are modelled by exact rationals (`ℚ`); all the constants in
  the source are decimal literals, so every computation performed by the code
  is a rational computation, and the properties at stake (comparisons against
  decimal thresholds, exact products of table constants) are insensitive to
  binary floating-point rounding.
* Python dictionaries with string keys are modelled by if-chains over string
  equality (`d.get(k, default)` becomes an if-chain ending in the default),
  which is extensionally the same lookup function.
* `dict.get(key, default)` on a *request* record is modelled by `Option`
  fields together with `Option.getD default`: `none` is an absent key.
* `round(x, 1)` is modelled by `round1`, rounding half-to-even as Python does.
* `datetime.now()` is modelled by an explicit clock argument `now : ℕ`;
  output fields holding a formatted current date hold that tick instead.
-/

set_option autoImplicit false

namespace Rehab

/-! ## Python rounding: `round(x, 1)` -/

/-- Round to the nearest integer, ties to even (Python `round` semantics). -/
def roundHalfEven (x : ℚ) : ℤ :=
  if x - ⌊x⌋ < 1/2 then ⌊x⌋
  else if 1/2 < x - ⌊x⌋ then ⌊x⌋ + 1
  else if ⌊x⌋ % 2 = 0 then ⌊x⌋ else ⌊x⌋ + 1

/-- Python `round(x, 1)`: round to one decimal place, ties to even. -/
def round1 (x : ℚ) : ℚ := (roundHalfEven (x * 10) : ℚ) / 10

/-! ## `contraindication_checker.py`: findings and the safety verdict

A finding is one of the dict records appended by the checking functions.
The exact field sets vary slightly between the three tiers (relative findings
carry a `recommendation`, absolute ones an `action`); only string payloads are
involved, so one record type with a slot for either wording is used.  The
verdict function `determine_safety_level` only ever reads the three list
lengths. -/

structure Finding where
  category : String
  description : String
  severity : String
  action : String
  evidence : String
  /-- The `alternative` string (a singleton) or `modifications` list that
  precaution findings additionally carry; `[]` for the other tiers. -/
  extra : List String
deriving Repr, DecidableEq

/-- An exercise modification suggested by `generate_exercise_modifications`. -/
structure Modification where
  modType : String
  modification : String
  rationale : String
deriving Repr, DecidableEq

/-- The `contraindications` dict built by `check_exercise_contraindications`. -/
structure Contraindications where
  absolute : List Finding
  relative : List Finding
  precautions : List Finding
  modifications : List Modification
deriving Repr, DecidableEq

/-- The record returned by `determine_safety_level`. -/
structure SafetyAssessment where
  level : String
  color : String
  recommendation : String
  absolute_count : ℕ
  relative_count : ℕ
  precaution_count : ℕ
deriving Repr, DecidableEq

/-- `determine_safety_level` (contraindication_checker.py, lines 405-442):
priority-ordered verdict over the three finding counts. -/
def determine_safety_level (c : Contraindications) : SafetyAssessment :=
  let absolute_count := c.absolute.length
  let relative_count := c.relative.length
  let precaution_count := c.precautions.length
  if 0 < absolute_count then
    { level := "UNSAFE", color := "red",
      recommendation := "Exercise prohibited - address contraindications first",
      absolute_count := absolute_count, relative_count := relative_count,
      precaution_count := precaution_count }
  else if 3 ≤ relative_count ∨ 4 ≤ precaution_count then
    { level := "HIGH_RISK", color := "orange",
      recommendation := "Significant modifications required - consider alternative exercises",
      absolute_count := absolute_count, relative_count := relative_count,
      precaution_count := precaution_count }
  else if 1 ≤ relative_count ∨ 2 ≤ precaution_count then
    { level := "MODERATE_RISK", color := "yellow",
      recommendation := "Exercise with modifications and close monitoring",
      absolute_count := absolute_count, relative_count := relative_count,
      precaution_count := precaution_count }
  else if 1 ≤ precaution_count then
    { level := "LOW_RISK", color := "light_green",
      recommendation := "Exercise with minor modifications",
      absolute_count := absolute_count, relative_count := relative_count,
      precaution_count := precaution_count }
  else
    { level := "SAFE", color := "green",
      recommendation := "Exercise cleared as prescribed",
      absolute_count := absolute_count, relative_count := relative_count,
      precaution_count := precaution_count }

/-- The overall verdict exactly as the specification words it: a pure
priority-ordered function of the finding counts (emergency/absolute tier
count, relative count, precaution count). -/
def spec_safety_verdict (absolute relative precaution : ℕ) : String :=
  if 1 ≤ absolute then "UNSAFE"
  else if 3 ≤ relative ∨ 4 ≤ precaution then "HIGH_RISK"
  else if 1 ≤ relative ∨ 2 ≤ precaution then "MODERATE_RISK"
  else if 1 ≤ precaution then "LOW_RISK"
  else "SAFE"

/-! ## `contraindication_checker.py`: the checking pipeline -/

/-- Python `sub in s` (substring containment) on character lists. -/
def substrB (needle : List Char) : List Char → Bool
  | [] => needle.isEmpty
  | c :: t => needle.isPrefixOf (c :: t) || substrB needle t

/-- Python `sub in s` on strings. -/
def str_contains (haystack needle : String) : Bool :=
  substrB needle.data haystack.data

/-- Python `s.lower()`. -/
def lowerStr (s : String) : String := String.mk (s.data.map Char.toLower)

/-- The `patient_profile` request dict of the checker; `none` is an absent
key (the `medications` list defaults to `[]`, folded into the field). -/
structure PatientProfile where
  unstable_angina : Option Bool
  uncontrolled_arrhythmia : Option Bool
  severe_pulmonary_edema : Option Bool
  blood_glucose : Option ℚ
  fever : Option Bool
  systemic_infection : Option Bool
  recent_cardiac_event : Option Bool
  age : Option ℚ
  systolic_bp : Option ℚ
  pregnant : Option Bool
  trimester : Option ℤ
  medications : List String
deriving Repr, DecidableEq

/-- The `exercise_data` request dict (`exType` models the key `type`). -/
structure ExerciseData where
  exType : Option String
  intensity : Option String
  position : Option String
  contact_risk : Option Bool
  cognitive_demand : Option String
  name : Option String
  load_bearing : Option Bool
  rom_requirement : Option String
deriving Repr, DecidableEq

/-- The `injury_data` request dict of the checker. -/
structure ExerciseInjuryData where
  injury_type : Option String
  phase : Option String
  current_pain : Option ℚ
  rom_limitation : Option ℚ
deriving Repr, DecidableEq

/-- `check_absolute_contraindications` (contraindication_checker.py,
lines 51-119). -/
def check_absolute_contraindications (p : PatientProfile) (e : ExerciseData) :
    List Finding :=
  (if p.unstable_angina.getD false then
    [{ category := "Cardiovascular", description := "Unstable angina",
       severity := "ABSOLUTE", action := "Exercise prohibited until medical clearance",
       evidence := "ACSM Guidelines 2022", extra := [] }] else [])
  ++ (if p.uncontrolled_arrhythmia.getD false then
    [{ category := "Cardiovascular", description := "Uncontrolled cardiac arrhythmia",
       severity := "ABSOLUTE", action := "Cardiology clearance required",
       evidence := "Exercise physiology guidelines", extra := [] }] else [])
  ++ (if p.severe_pulmonary_edema.getD false then
    [{ category := "Respiratory", description := "Severe pulmonary edema",
       severity := "ABSOLUTE", action := "Exercise contraindicated",
       evidence := "Respiratory medicine guidelines", extra := [] }] else [])
  ++ (if 300 < p.blood_glucose.getD 100 then
    [{ category := "Metabolic", description := "Severe hyperglycemia (>300 mg/dL)",
       severity := "ABSOLUTE", action := "Medical management required before exercise",
       evidence := "Diabetes exercise guidelines", extra := [] }] else [])
  ++ (if p.fever.getD false || p.systemic_infection.getD false then
    [{ category := "Infectious", description := "Fever or systemic infection",
       severity := "ABSOLUTE", action := "Wait until fever-free for 24 hours",
       evidence := "Exercise immunology research", extra := [] }] else [])
  ++ (if e.intensity.getD "moderate" = "high" ∧ p.recent_cardiac_event.getD false then
    [{ category := "Exercise-Specific", description := "High-intensity exercise post-cardiac event",
       severity := "ABSOLUTE", action := "Reduce to low-moderate intensity",
       evidence := "Cardiac rehabilitation guidelines", extra := [] }] else [])

/-- `check_relative_contraindications` (contraindication_checker.py,
lines 121-204); the `action` slot holds the `recommendation` value of the
source dicts. -/
def check_relative_contraindications (p : PatientProfile) (e : ExerciseData)
    (i : ExerciseInjuryData) : List Finding :=
  (if 65 < p.age.getD 30 ∧ e.intensity.getD "moderate" = "high" then
    [{ category := "Age-Related", description := "High-intensity exercise in older adults",
       severity := "RELATIVE", action := "Progressive intensity increase with monitoring",
       evidence := "Geriatric exercise guidelines", extra := [] }] else [])
  ++ (if 180 < p.systolic_bp.getD 120 then
    [{ category := "Cardiovascular", description := "Severe hypertension (SBP >180)",
       severity := "RELATIVE", action := "Lower intensity, avoid Valsalva maneuvers",
       evidence := "Hypertension exercise guidelines", extra := [] }] else [])
  ++ (if p.pregnant.getD false then
      (if lowerStr (e.position.getD "") = "supine" ∧ 1 < p.trimester.getD 1 then
        [{ category := "Pregnancy", description := "Supine exercises after first trimester",
           severity := "RELATIVE", action := "Modify to side-lying or inclined positions",
           evidence := "ACOG exercise guidelines", extra := [] }] else [])
      ++ (if lowerStr (e.exType.getD "") = "contact" ∨ lowerStr (e.exType.getD "") = "high_impact" then
        [{ category := "Pregnancy", description := "Contact or high-impact exercise during pregnancy",
           severity := "RELATIVE", action := "Substitute with low-impact alternatives",
           evidence := "Prenatal exercise research", extra := [] }] else [])
    else [])
  ++ (if p.medications.contains "beta_blockers" then
    [{ category := "Medication", description := "Beta-blocker use affecting heart rate response",
       severity := "RELATIVE", action := "Use RPE instead of heart rate for intensity",
       evidence := "Exercise pharmacology", extra := [] }] else [])
  ++ (if p.medications.contains "blood_thinners" ∧ e.contact_risk.getD false then
    [{ category := "Medication", description := "Anticoagulant use with contact exercise",
       severity := "RELATIVE", action := "Avoid exercises with fall/contact risk",
       evidence := "Anticoagulation guidelines", extra := [] }] else [])
  ++ (if i.injury_type.getD "" = "concussion" ∧ e.cognitive_demand.getD "low" = "high" then
    [{ category := "Injury-Specific", description := "High cognitive demand exercise post-concussion",
       severity := "RELATIVE", action := "Simplify movement patterns initially",
       evidence := "Concussion exercise guidelines", extra := [] }] else [])

/-- The `avoid` lists of the `injury_exercise_matrix`
(contraindication_checker.py, lines 216-270); an injury or phase outside the
matrix gives the empty list. -/
def injury_exercise_avoid (injury_type injury_phase : String) : List String :=
  if injury_type = "ACL" then
    if injury_phase = "early" then ["pivot", "cutting", "jumping"]
    else if injury_phase = "mid" then ["unrestricted_pivot", "competitive_drills"]
    else if injury_phase = "late" then ["unpredictable_movements"]
    else []
  else if injury_type = "Achilles" then
    if injury_phase = "early" then ["jumping", "running", "calf_raises"]
    else if injury_phase = "mid" then ["high_impact", "explosive_movement"]
    else []
  else if injury_type = "Hamstring" then
    if injury_phase = "early" then ["sprinting", "aggressive_stretching", "eccentric_loading"]
    else if injury_phase = "mid" then ["ballistic_movements", "max_effort"]
    else []
  else if injury_type = "Rotator_Cuff" then
    if injury_phase = "early" then ["overhead", "behind_back", "heavy_lifting"]
    else if injury_phase = "mid" then ["overhead_sports", "heavy_resistance"]
    else []
  else []

/-- The `caution` lists of the `injury_exercise_matrix`. -/
def injury_exercise_caution (injury_type injury_phase : String) : List String :=
  if injury_type = "ACL" then
    if injury_phase = "early" then ["closed_chain", "deep_squat"]
    else if injury_phase = "mid" then ["plyometric", "sport_specific"]
    else if injury_phase = "late" then ["reactive_drills", "full_speed"]
    else []
  else if injury_type = "Achilles" then
    if injury_phase = "early" then ["weight_bearing", "dorsiflexion_stretch"]
    else if injury_phase = "mid" then ["eccentric_loading", "plyometric"]
    else []
  else if injury_type = "Hamstring" then
    if injury_phase = "early" then ["hip_flexion", "knee_extension"]
    else if injury_phase = "mid" then ["eccentric_strengthening", "running"]
    else []
  else if injury_type = "Rotator_Cuff" then
    if injury_phase = "early" then ["external_rotation", "abduction"]
    else if injury_phase = "mid" then ["progressive_overhead", "resistance_training"]
    else []
  else []

/-- `suggest_alternative_exercise` (contraindication_checker.py,
lines 320-337). -/
def suggest_alternative_exercise (avoided injury_type injury_phase : String) : String :=
  if avoided = "jumping" then
    if injury_type = "ACL" then
      if injury_phase = "early" then "Stationary bike"
      else if injury_phase = "mid" then "Step-ups"
      else if injury_phase = "late" then "Controlled hops"
      else "Consult with therapist for alternatives"
    else if injury_type = "Achilles" then
      if injury_phase = "early" then "Upper body cardio"
      else if injury_phase = "mid" then "Pool walking"
      else if injury_phase = "late" then "Low-impact plyometrics"
      else "Consult with therapist for alternatives"
    else "Consult with therapist for alternatives"
  else if avoided = "running" then
    if injury_type = "Achilles" then
      if injury_phase = "early" then "Cycling"
      else if injury_phase = "mid" then "Elliptical"
      else if injury_phase = "late" then "Treadmill walking"
      else "Consult with therapist for alternatives"
    else if injury_type = "Hamstring" then
      if injury_phase = "early" then "Swimming"
      else if injury_phase = "mid" then "Walking"
      else if injury_phase = "late" then "Jogging"
      else "Consult with therapist for alternatives"
    else "Consult with therapist for alternatives"
  else if avoided = "overhead" then
    if injury_type = "Rotator_Cuff" then
      if injury_phase = "early" then "Below shoulder exercises"
      else if injury_phase = "mid" then "Limited overhead"
      else if injury_phase = "late" then "Progressive overhead"
      else "Consult with therapist for alternatives"
    else "Consult with therapist for alternatives"
  else "Consult with therapist for alternatives"

/-- `suggest_exercise_modifications` (contraindication_checker.py,
lines 339-363). -/
def suggest_exercise_modifications (exercise_type : String) : List String :=
  if exercise_type = "plyometric" then
    ["Reduce jump height", "Add pause between reps",
     "Use bilateral instead of unilateral", "Land on softer surface"]
  else if exercise_type = "strengthening" then
    ["Reduce load by 50%", "Increase rest periods",
     "Focus on concentric phase", "Use partial range of motion"]
  else if exercise_type = "stretching" then
    ["Reduce stretch intensity", "Hold for shorter duration",
     "Use active vs passive stretching", "Warm up thoroughly first"]
  else ["Reduce intensity", "Monitor symptoms", "Progress gradually"]

/-- `check_exercise_precautions` (contraindication_checker.py,
lines 206-318); the matched-name test is Python substring containment over
the lowercased exercise `type` and `name`. -/
def check_exercise_precautions (e : ExerciseData) (i : ExerciseInjuryData)
    (_p : PatientProfile) : List Finding :=
  let injury_type := i.injury_type.getD ""
  let injury_phase := i.phase.getD "early"
  let entry_hits := fun (entry : String) =>
    str_contains (lowerStr (e.exType.getD "")) (lowerStr entry)
    || str_contains (lowerStr (e.name.getD "")) (lowerStr entry)
  let in_matrix := injury_type = "ACL" ∨ injury_type = "Achilles"
    ∨ injury_type = "Hamstring" ∨ injury_type = "Rotator_Cuff"
  (if in_matrix then
    ((injury_exercise_avoid injury_type injury_phase).filter entry_hits).map
      (fun a =>
        { category := "Injury-Specific",
          description := "Exercise type contraindicated for " ++ injury_type
            ++ " in " ++ injury_phase ++ " phase",
          severity := "HIGH",
          action := "Avoid " ++ a ++ " exercises",
          evidence := "",
          extra := [suggest_alternative_exercise a injury_type injury_phase] })
    ++ ((injury_exercise_caution injury_type injury_phase).filter entry_hits).map
      (fun c =>
        { category := "Injury-Specific",
          description := "Exercise requires caution for " ++ injury_type
            ++ " in " ++ injury_phase ++ " phase",
          severity := "MEDIUM",
          action := "Proceed carefully with " ++ c ++ " exercises",
          evidence := "",
          extra := suggest_exercise_modifications c })
  else [])
  ++ (if 3 < i.current_pain.getD 0 ∧ e.load_bearing.getD true then
    [{ category := "Pain-Based", description := "Moderate pain with load-bearing exercise",
       severity := "MEDIUM", action := "Reduce load or switch to non-weight bearing alternative",
       evidence := "", extra := [] }] else [])
  ++ (if 20 < i.rom_limitation.getD 0 ∧ e.rom_requirement.getD "full" = "full" then
    [{ category := "Range of Motion", description := "Exercise requires ROM beyond current capability",
       severity := "MEDIUM", action := "Modify exercise to work within available range",
       evidence := "", extra := [] }] else [])

/-- Model of Python `str(finding_dict)` for the substring test of
`generate_exercise_modifications`: the field values joined with a separator
(the dict keys contain no lowercase `supine`, so value containment is
equivalent). -/
def finding_str (f : Finding) : String :=
  f.category ++ "; " ++ f.description ++ "; " ++ f.severity ++ "; "
    ++ f.action ++ "; " ++ f.evidence ++ "; " ++ String.intercalate "; " f.extra

/-- `generate_exercise_modifications` (contraindication_checker.py,
lines 365-403); `exercise_data` is accepted but never read, as in the
source. -/
def generate_exercise_modifications (_absolute relative precautions : List Finding)
    (_e : ExerciseData) (i : ExerciseInjuryData) : List Modification :=
  (if relative.any (fun f => f.severity = "RELATIVE") then
    [{ modType := "Intensity", modification := "Reduce exercise intensity by 25-50%",
       rationale := "Relative contraindications present" }] else [])
  ++ (if precautions ≠ [] then
    [{ modType := "Duration", modification := "Reduce exercise duration, increase rest periods",
       rationale := "Precautions require careful monitoring" }] else [])
  ++ (if relative.any (fun f => str_contains (finding_str f) "supine") then
    [{ modType := "Position", modification := "Avoid supine positions, use inclined or side-lying",
       rationale := "Position-specific contraindication" }] else [])
  ++ (if i.phase.getD "early" = "early" then
    [{ modType := "Load", modification := "Use bodyweight or minimal resistance only",
       rationale := "Early phase injury protection" }] else [])

/-- The record returned by `check_exercise_contraindications`; the
`assessment_date` field holds the clock tick standing for the formatted
`datetime.now()` string. -/
structure ContraindicationCheck where
  contraindications : Contraindications
  safety_assessment : SafetyAssessment
  exercise_cleared : Bool
  requires_modification : Bool
  assessment_date : ℕ
deriving Repr, DecidableEq

/-- `check_exercise_contraindications` (contraindication_checker.py,
lines 9-49). -/
def check_exercise_contraindications (p : PatientProfile) (e : ExerciseData)
    (i : ExerciseInjuryData) (now : ℕ) : ContraindicationCheck :=
  let absolute := check_absolute_contraindications p e
  let relative := check_relative_contraindications p e i
  let precautions := check_exercise_precautions e i p
  let modifications := generate_exercise_modifications absolute relative precautions e i
  let contraindications : Contraindications :=
    { absolute := absolute, relative := relative,
      precautions := precautions, modifications := modifications }
  { contraindications := contraindications
    safety_assessment := determine_safety_level contraindications
    exercise_cleared := decide (absolute.length = 0)
    requires_modification := decide (0 < relative.length ∨ 0 < precautions.length)
    assessment_date := now }

/-! ## `rts_testing.py`: limb symmetry indices -/

/-- The per-test LSI computation of `calculate_hop_test_battery`
(rts_testing.py, lines 76-85): ratio of the limbs, inverted when the test is
reverse-scored (timed), then capped at 120. -/
def hop_test_lsi (reverse_scoring : Bool) (injured uninjured : ℚ) : ℚ :=
  let lsi := if reverse_scoring then uninjured / injured * 100
             else injured / uninjured * 100
  min lsi 120

/-- The per-muscle-group LSI of `calculate_strength_testing_battery`
(rts_testing.py, line 181): plain ratio, no cap. -/
def strength_lsi (injured uninjured : ℚ) : ℚ := injured / uninjured * 100

/-! ## `rts_testing.py`: strength testing battery -/

/-- Per-muscle-group record stored by `calculate_strength_testing_battery`. -/
structure StrengthGroupResult where
  injured_strength : ℚ
  uninjured_strength : ℚ
  lsi : ℚ
  threshold : ℚ
  passed : Bool
deriving Repr, DecidableEq

/-- The record returned by `calculate_strength_testing_battery`. -/
structure StrengthBattery where
  muscle_group_results : List (String × StrengthGroupResult)
  composite_strength_index : ℚ
  strength_pass_rate : ℚ
  strength_cleared : Bool
  muscle_groups_tested : ℕ
deriving Repr, DecidableEq

/-- The per-injury muscle-group threshold table of
`calculate_strength_testing_battery`; unknown injury types fall back to the
ACL entry (`strength_thresholds.get(injury_type, strength_thresholds["ACL"])`). -/
def strength_thresholds (injury_type : String) : List (String × ℚ) :=
  if injury_type = "ACL" then
    [("knee_extension", 90), ("knee_flexion", 90), ("hip_abduction", 85), ("hip_extension", 85)]
  else if injury_type = "Achilles" then
    [("plantarflexion", 95), ("dorsiflexion", 85), ("inversion", 85), ("eversion", 85)]
  else if injury_type = "Hamstring" then
    [("knee_flexion", 95), ("hip_extension", 90), ("hip_abduction", 85)]
  else
    [("knee_extension", 90), ("knee_flexion", 90), ("hip_abduction", 85), ("hip_extension", 85)]

/-- One iteration of the muscle-group loop of
`calculate_strength_testing_battery`: accumulated (results, running LSI sum,
groups tested); a group is scored only when both limb keys are present and
both values are positive. -/
def strength_step (strength_data : List (String × ℚ))
    (acc : List (String × StrengthGroupResult) × ℚ × ℕ) (entry : String × ℚ) :
    List (String × StrengthGroupResult) × ℚ × ℕ :=
  match strength_data.lookup (entry.1 ++ "_injured"),
        strength_data.lookup (entry.1 ++ "_uninjured") with
  | some injured, some uninjured =>
    if 0 < injured ∧ 0 < uninjured then
      let lsi := strength_lsi injured uninjured
      (acc.1 ++ [(entry.1,
          { injured_strength := injured, uninjured_strength := uninjured,
            lsi := round1 lsi, threshold := entry.2,
            passed := decide (entry.2 ≤ lsi) })],
       acc.2.1 + lsi, acc.2.2 + 1)
    else acc
  | _, _ => acc

/-- `calculate_strength_testing_battery` (rts_testing.py, lines 139-210).
`strength_data` models the input dict (`List.lookup` is the key lookup). -/
def calculate_strength_testing_battery (strength_data : List (String × ℚ))
    (injury_type : String) : StrengthBattery :=
  let st := (strength_thresholds injury_type).foldl (strength_step strength_data) ([], 0, 0)
  let results := st.1
  let total_strength_index := st.2.1
  let muscle_groups_tested := st.2.2
  let composite_strength :=
    if 0 < muscle_groups_tested then round1 (total_strength_index / muscle_groups_tested) else 0
  let passed_groups := (results.filter (fun r => r.2.passed)).length
  let strength_pass_rate :=
    if results.length ≠ 0 then ((passed_groups : ℚ) / results.length) * 100 else 0
  { muscle_group_results := results
    composite_strength_index := composite_strength
    strength_pass_rate := round1 strength_pass_rate
    strength_cleared := decide (90 ≤ composite_strength) && decide (80 ≤ strength_pass_rate)
    muscle_groups_tested := muscle_groups_tested }

/-! ## `rts_testing.py`: comprehensive RTS assessment -/

/-- The `psychological_data` request dict; `none` is an absent key. -/
structure PsychologicalData where
  confidence_score : Option ℚ
  fear_score : Option ℚ
  motivation_score : Option ℚ
deriving Repr, DecidableEq

/-- The `injury_history` request dict; `none` is an absent key. -/
structure InjuryHistory where
  months_since_injury : Option ℚ
  previous_injury_count : Option ℚ
  rehab_compliance : Option ℚ
deriving Repr, DecidableEq

/-- The psychological readiness component of `comprehensive_rts_assessment`
(rts_testing.py, lines 296-301): mean of confidence, reverse-scored fear and
motivation, with defaults 50. -/
def psych_score (p : PsychologicalData) : ℚ :=
  (p.confidence_score.getD 50 + (100 - p.fear_score.getD 50) + p.motivation_score.getD 50) / 3

/-- The injury-history component of `comprehensive_rts_assessment`
(rts_testing.py, lines 304-309). -/
def injury_score (h : InjuryHistory) : ℚ :=
  (min 100 (h.months_since_injury.getD 0 * 10)
    + max 0 (100 - h.previous_injury_count.getD 0 * 20)
    + h.rehab_compliance.getD 80) / 3

/-- The weighted composite of `comprehensive_rts_assessment`
(rts_testing.py, lines 281-318).  The three battery inputs are the values of
the keys `composite_lsi`, `composite_strength_index` and `agility_pass_rate`
of the respective results dicts, each defaulting to 0 when absent. -/
def rts_composite_score (hop strength agility : Option ℚ)
    (p : PsychologicalData) (h : InjuryHistory) : ℚ :=
  hop.getD 0 * 0.30 + strength.getD 0 * 0.25 + agility.getD 0 * 0.20
    + psych_score p * 0.15 + injury_score h * 0.10

/-- One entry produced by `generate_rts_recommendations`. -/
structure RTSRecommendation where
  area : String
  recommendation : String
  timeline : String
  exercises : List String
deriving Repr, DecidableEq

/-- `generate_rts_recommendations` (rts_testing.py, lines 368-405); the
`scores` argument is accepted but never read, as in the source. -/
def generate_rts_recommendations (limiting_factors : List String)
    (_scores : List (String × ℚ)) : List RTSRecommendation :=
  (if limiting_factors.contains "Hop Tests" then
    [{ area := "Functional Performance",
       recommendation := "Focus on plyometric training and single-limb exercises",
       timeline := "2-4 weeks",
       exercises := ["Single leg hops", "Lateral bounds", "Depth jumps"] }]
   else [])
  ++ (if limiting_factors.contains "Strength" then
    [{ area := "Strength Training",
       recommendation := "Intensive strength training targeting weak muscle groups",
       timeline := "4-6 weeks",
       exercises := ["Eccentric strengthening", "Progressive resistance", "Isokinetic training"] }]
   else [])
  ++ (if limiting_factors.contains "Agility" then
    [{ area := "Movement Quality",
       recommendation := "Sport-specific agility and cutting drills",
       timeline := "2-3 weeks",
       exercises := ["Cone drills", "Reactive agility", "Sport-specific movements"] }]
   else [])
  ++ (if limiting_factors.contains "Psychological" then
    [{ area := "Psychological Readiness",
       recommendation := "Address fear-avoidance and build confidence",
       timeline := "Ongoing",
       exercises := ["Graded exposure", "Visualization", "Sport psychology support"] }]
   else [])

/-- The record returned by `comprehensive_rts_assessment`.  The
`assessment_date` field holds the clock tick standing for the formatted
`datetime.now()` string. -/
structure RTSAssessment where
  composite_score : ℚ
  rts_recommendation : String
  risk_category : String
  timeline : String
  color : String
  component_scores : List (String × ℚ)
  limiting_factors : List String
  specific_recommendations : List RTSRecommendation
  assessment_date : ℕ
deriving Repr, DecidableEq

/-- `comprehensive_rts_assessment` (rts_testing.py, lines 273-366). -/
def comprehensive_rts_assessment (hop strength agility : Option ℚ)
    (psychological_data : PsychologicalData) (injury_history : InjuryHistory)
    (now : ℕ) : RTSAssessment :=
  let hop_score := hop.getD 0
  let strength_score := strength.getD 0
  let agility_score := agility.getD 0
  let psych := psych_score psychological_data
  let inj := injury_score injury_history
  let composite := rts_composite_score hop strength agility psychological_data injury_history
  let band : String × String × String × String :=
    if 90 ≤ composite then
      ("CLEARED", "Low Risk", "Immediate return to sport", "green")
    else if 80 ≤ composite then
      ("CONDITIONAL", "Low-Moderate Risk", "Return with sport-specific progression", "yellow")
    else if 70 ≤ composite then
      ("NOT READY", "Moderate Risk", "2-4 weeks additional training", "orange")
    else
      ("NOT CLEARED", "High Risk", "6-8 weeks comprehensive rehabilitation", "red")
  let component_scores : List (String × ℚ) :=
    [("Hop Tests", hop_score), ("Strength", strength_score), ("Agility", agility_score),
     ("Psychological", psych), ("Injury Factors", inj)]
  let limiting_factors := (component_scores.filter (fun c => c.2 < 85)).map (fun c => c.1)
  { composite_score := round1 composite
    rts_recommendation := band.1
    risk_category := band.2.1
    timeline := band.2.2.1
    color := band.2.2.2
    component_scores := component_scores.map (fun c => (c.1, round1 c.2))
    limiting_factors := limiting_factors
    specific_recommendations := generate_rts_recommendations limiting_factors component_scores
    assessment_date := now }

/-- Modelled from the spec (for the refinement comparison of C3, following
its words): the weighted average over the *present* components only, with
the weights of the present components renormalized to sum to 1; a missing
component is excluded from both the numerator and the denominator. -/
def spec_renormalized_composite (components : List (ℚ × Option ℚ)) : ℚ :=
  let present := components.filterMap (fun c => c.2.map (fun s => (c.1, s)))
  let weight_sum := (present.map (fun c => c.1)).sum
  if weight_sum = 0 then 0
  else (present.map (fun c => c.1 * c.2)).sum / weight_sum

/-! ## `recovery_predictions.py`: base duration table -/

/-- The `injury_data` request dict of `predict_recovery_timeline`; `none` is
an absent key (the formatted `injury_date` string is outside the numeric
model). -/
structure InjuryData where
  injury_type : Option String
  severity : Option String
  treatment : Option String
  graft_type : Option String
  meniscus_tear : Option Bool
  location : Option String
  mri_grade : Option ℤ
  pathology : Option String
deriving Repr, DecidableEq

/-- The `patient_factors` request dict. -/
structure PatientFactors where
  age : Option ℚ
  fitness_level : Option String
  expected_compliance : Option String
  comorbidities : List String
  psychological_readiness : Option ℚ
deriving Repr, DecidableEq

/-- The `treatment_factors` request dict. -/
structure TreatmentFactors where
  treatment_quality : Option String
deriving Repr, DecidableEq

/-- The ACL row of `base_recovery_times`. -/
def acl_recovery_times (k : String) : Option ℕ :=
  if k = "conservative" then some 16 else if k = "surgical" then some 24
  else if k = "return_to_sport" then some 32 else none

/-- The Achilles row of `base_recovery_times`. -/
def achilles_recovery_times (k : String) : Option ℕ :=
  if k = "conservative" then some 12 else if k = "surgical" then some 20
  else if k = "return_to_sport" then some 28 else none

/-- The Hamstring row of `base_recovery_times`. -/
def hamstring_recovery_times (k : String) : Option ℕ :=
  if k = "grade_1" then some 3 else if k = "grade_2" then some 6
  else if k = "grade_3" then some 12 else if k = "return_to_sport" then some 16 else none

/-- The Meniscus row of `base_recovery_times`. -/
def meniscus_recovery_times (k : String) : Option ℕ :=
  if k = "conservative" then some 8 else if k = "repair" then some 16
  else if k = "partial_removal" then some 12 else none

/-- The Rotator_Cuff row of `base_recovery_times`. -/
def rotator_cuff_recovery_times (k : String) : Option ℕ :=
  if k = "conservative" then some 12 else if k = "surgical" then some 20
  else if k = "return_to_sport" then some 24 else none

/-- The Ankle_Sprain row of `base_recovery_times`. -/
def ankle_sprain_recovery_times (k : String) : Option ℕ :=
  if k = "grade_1" then some 2 else if k = "grade_2" then some 4
  else if k = "grade_3" then some 8 else none

/-- `base_recovery_times.get(injury_type, base_recovery_times["ACL"])`:
the row for the injury type, the ACL row for unknown injury types. -/
def base_injury_timelines (injury_type k : String) : Option ℕ :=
  if injury_type = "ACL" then acl_recovery_times k
  else if injury_type = "Achilles" then achilles_recovery_times k
  else if injury_type = "Hamstring" then hamstring_recovery_times k
  else if injury_type = "Meniscus" then meniscus_recovery_times k
  else if injury_type = "Rotator_Cuff" then rotator_cuff_recovery_times k
  else if injury_type = "Ankle_Sprain" then ankle_sprain_recovery_times k
  else acl_recovery_times k

/-- The base-weeks selection of `predict_recovery_timeline`
(recovery_predictions.py, lines 57-65): treatment key first, then severity
key, then the `conservative` entry, then 12. -/
def lookup_base_weeks (injury_type treatment severity : String) : ℕ :=
  match base_injury_timelines injury_type treatment with
  | some w => w
  | none =>
    match base_injury_timelines injury_type severity with
    | some w => w
    | none => (base_injury_timelines injury_type "conservative").getD 12

/-- Modelled from the spec (for the comparison in C5, following its words):
a base-duration lookup that fails (returns `none`, the model of the
`UnknownConfiguration` error) whenever the injury type × treatment path
combination has no entry, instead of substituting a default. -/
def spec_lookup_base_weeks (injury_type treatment : String) : Option ℕ :=
  if injury_type = "ACL" ∨ injury_type = "Achilles" ∨ injury_type = "Hamstring"
      ∨ injury_type = "Meniscus" ∨ injury_type = "Rotator_Cuff"
      ∨ injury_type = "Ankle_Sprain" then
    base_injury_timelines injury_type treatment
  else none

/-! ## `recovery_predictions.py`: modifiers -/

/-- The age branch of `calculate_recovery_modifiers`. -/
def age_modifier (age : ℚ) : ℚ :=
  if age < 20 then 0.85 else if age < 30 then 0.95 else if age < 40 then 1
  else if age < 50 then 1.15 else 1.3

/-- The `fitness_modifiers` dict lookup with default 1.0. -/
def fitness_modifier (level : String) : ℚ :=
  if level = "elite" then 0.8 else if level = "high" then 0.9
  else if level = "average" then 1 else if level = "low" then 1.2
  else if level = "sedentary" then 1.4 else 1

/-- The `compliance_modifiers` dict lookup with default 1.0. -/
def compliance_modifier (compliance : String) : ℚ :=
  if compliance = "excellent" then 0.85 else if compliance = "good" then 1
  else if compliance = "fair" then 1.25 else if compliance = "poor" then 1.6 else 1

/-- The `comorbidity_impact` dict: per-condition multiplier, absent for
conditions outside the table. -/
def comorbidity_impact (condition : String) : Option ℚ :=
  if condition = "diabetes" then some 1.3 else if condition = "smoking" then some 1.4
  else if condition = "obesity" then some 1.2 else if condition = "cardiovascular" then some 1.15
  else if condition = "autoimmune" then some 1.25 else none

/-- The uncapped comorbidity product: multiplier folded over all present
comorbidities that the table knows. -/
def comorbidity_raw (comorbidities : List String) : ℚ :=
  comorbidities.foldl
    (fun acc condition =>
      match comorbidity_impact condition with
      | some m => acc * m
      | none => acc) 1

/-- The `treatment_modifiers` dict lookup with default 1.0. -/
def treatment_quality_modifier (quality : String) : ℚ :=
  if quality = "optimal" then 0.9 else if quality = "good" then 0.95
  else if quality = "standard" then 1 else if quality = "suboptimal" then 1.2
  else if quality = "poor" then 1.4 else 1

/-- The psychological branch of `calculate_recovery_modifiers`. -/
def psychological_modifier (score : ℚ) : ℚ :=
  if 80 ≤ score then 0.95 else if 60 ≤ score then 1
  else if 40 ≤ score then 1.15 else 1.3

/-- `calculate_injury_specific_modifiers` (recovery_predictions.py,
lines 210-255). -/
def calculate_injury_specific_modifiers (d : InjuryData) : ℚ :=
  let injury_type := d.injury_type.getD "ACL"
  if injury_type = "ACL" then
    let m : ℚ :=
      if d.graft_type.getD "hamstring" = "patellar_tendon" then 1 * 1.1
      else if d.graft_type.getD "hamstring" = "allograft" then 1 * 0.95
      else 1
    if d.meniscus_tear.getD false then m * 1.2 else m
  else if injury_type = "Hamstring" then
    let m : ℚ :=
      if d.location.getD "muscle_belly" = "proximal_tendon" then 1 * 1.4
      else if d.location.getD "muscle_belly" = "distal_tendon" then 1 * 1.2
      else 1
    if d.mri_grade.getD 2 = 1 then m * 0.7
    else if d.mri_grade.getD 2 = 3 then m * 1.5
    else m
  else if injury_type = "Achilles" then
    let m : ℚ := if d.pathology.getD "tendinopathy" = "rupture" then 1 * 1.6 else 1
    if d.location.getD "mid_portion" = "insertional" then m * 1.3 else m
  else 1

/-- The modifiers dict built by `calculate_recovery_modifiers`, in its
insertion order; `total_modifier` is appended last. -/
structure Modifiers where
  age_modifier : ℚ
  fitness_modifier : ℚ
  compliance_modifier : ℚ
  comorbidity_modifier : ℚ
  treatment_modifier : ℚ
  psychological_modifier : ℚ
  injury_specific_modifier : ℚ
  total_modifier : ℚ
deriving Repr, DecidableEq

/-- The seven individual modifier values (every dict entry except
`total_modifier`), in dict order. -/
def Modifiers.individual (m : Modifiers) : List ℚ :=
  [m.age_modifier, m.fitness_modifier, m.compliance_modifier, m.comorbidity_modifier,
   m.treatment_modifier, m.psychological_modifier, m.injury_specific_modifier]

/-- `calculate_recovery_modifiers` (recovery_predictions.py, lines 110-208).
The total is folded exactly as the source loop does: every value of the dict
is multiplied in unless it equals `modifiers.get("total_modifier", 1.0)`,
which is 1.0 at that point since the key is only inserted afterwards — so
values equal to 1.0 are skipped (harmlessly, for a product). -/
def calculate_recovery_modifiers (pf : PatientFactors) (tf : TreatmentFactors)
    (idata : InjuryData) : Modifiers :=
  let a := age_modifier (pf.age.getD 30)
  let f := fitness_modifier (pf.fitness_level.getD "average")
  let c := compliance_modifier (pf.expected_compliance.getD "good")
  let co := min (comorbidity_raw pf.comorbidities) 2
  let t := treatment_quality_modifier (tf.treatment_quality.getD "standard")
  let p := psychological_modifier (pf.psychological_readiness.getD 70)
  let i := calculate_injury_specific_modifiers idata
  let total := (([a, f, c, co, t, p, i].filter (fun v => v ≠ 1)).foldl (· * ·) 1)
  { age_modifier := a, fitness_modifier := f, compliance_modifier := c,
    comorbidity_modifier := co, treatment_modifier := t, psychological_modifier := p,
    injury_specific_modifier := i, total_modifier := total }

/-! ## `recovery_predictions.py`: confidence intervals and prediction -/

/-- One of the two interval records of `calculate_confidence_intervals`. -/
structure CIRange where
  lower : ℚ
  upper : ℚ
deriving Repr, DecidableEq

/-- The record returned by `calculate_confidence_intervals`. -/
structure ConfidenceIntervals where
  range95 : CIRange
  range80 : CIRange
  uncertainty_percentage : ℚ
deriving Repr, DecidableEq

/-- The uncertainty accumulation loop of `calculate_confidence_intervals`:
0.05 is added for every modifier entry other than `total_modifier` whose
value is above 1.2 or below 0.8. -/
def modifier_uncertainty (m : Modifiers) : ℚ :=
  m.individual.foldl (fun acc v => if 1.2 < v ∨ v < 0.8 then acc + 0.05 else acc) 0

/-- `calculate_confidence_intervals` (recovery_predictions.py,
lines 345-373). -/
def calculate_confidence_intervals (predicted_weeks : ℚ) (m : Modifiers) :
    ConfidenceIntervals :=
  let total_uncertainty := min (0.15 + modifier_uncertainty m) 0.4
  let uncertainty_weeks := predicted_weeks * total_uncertainty
  { range95 :=
      { lower := round1 (predicted_weeks - 1.96 * uncertainty_weeks),
        upper := round1 (predicted_weeks + 1.96 * uncertainty_weeks) }
    range80 :=
      { lower := round1 (predicted_weeks - 1.28 * uncertainty_weeks),
        upper := round1 (predicted_weeks + 1.28 * uncertainty_weeks) }
    uncertainty_percentage := round1 (total_uncertainty * 100) }

/-- The per-injury phase distribution fallback of `get_phase_distribution`. -/
def default_phase_distribution : List (String × ℚ) :=
  [("early", 0.3), ("mid", 0.4), ("late", 0.2), ("return_to_sport", 0.1)]

/-- `get_phase_distribution` (recovery_predictions.py, lines 257-320). -/
def get_phase_distribution (injury_type treatment_type : String) : List (String × ℚ) :=
  if injury_type = "ACL" then
    if treatment_type = "surgical" then
      [("early", 0.25), ("mid", 0.35), ("late", 0.25), ("return_to_sport", 0.15)]
    else if treatment_type = "conservative" then
      [("early", 0.3), ("mid", 0.4), ("late", 0.3), ("return_to_sport", 0)]
    else default_phase_distribution
  else if injury_type = "Hamstring" then
    if treatment_type = "grade_1" then
      [("early", 0.4), ("mid", 0.6), ("late", 0), ("return_to_sport", 0)]
    else if treatment_type = "grade_2" then
      [("early", 0.3), ("mid", 0.5), ("late", 0.2), ("return_to_sport", 0)]
    else if treatment_type = "grade_3" then
      [("early", 0.25), ("mid", 0.4), ("late", 0.25), ("return_to_sport", 0.1)]
    else default_phase_distribution
  else if injury_type = "Achilles" then
    if treatment_type = "conservative" then
      [("early", 0.35), ("mid", 0.45), ("late", 0.2), ("return_to_sport", 0)]
    else if treatment_type = "surgical" then
      [("early", 0.3), ("mid", 0.4), ("late", 0.2), ("return_to_sport", 0.1)]
    else default_phase_distribution
  else default_phase_distribution

/-- One phase entry of the `phase_timelines` dict. -/
structure PhaseTimeline where
  duration_weeks : ℚ
  start_week : ℚ
  end_week : ℚ
deriving Repr, DecidableEq

/-- The phase-timeline loop of `predict_recovery_timeline`
(recovery_predictions.py, lines 76-86): cumulative sums of
`adjusted_weeks × percentage`. -/
def build_phase_timelines (adjusted_weeks : ℚ) (dist : List (String × ℚ)) :
    List (String × PhaseTimeline) :=
  (dist.foldl
    (fun acc e =>
      let phase_weeks := adjusted_weeks * e.2
      (acc.1 ++ [(e.1,
        { duration_weeks := round1 phase_weeks,
          start_week := round1 acc.2,
          end_week := round1 (acc.2 + phase_weeks) })],
       acc.2 + phase_weeks))
    ([], 0)).1

/-- The record returned by `predict_recovery_timeline`.  The milestone-date
fields (calendar arithmetic over the formatted injury date) and the
display-only `prediction_accuracy` block are outside the numeric model;
every field a claim mentions is present. -/
structure TimelinePrediction where
  total_recovery_weeks : ℚ
  base_recovery_weeks : ℕ
  modifying_factors : Modifiers
  phase_timelines : List (String × PhaseTimeline)
  confidence_intervals : ConfidenceIntervals
deriving Repr, DecidableEq

/-- `predict_recovery_timeline` (recovery_predictions.py, lines 10-108). -/
def predict_recovery_timeline (injury_data : InjuryData)
    (patient_factors : PatientFactors) (treatment_factors : TreatmentFactors) :
    TimelinePrediction :=
  let injury_type := injury_data.injury_type.getD "ACL"
  let injury_severity := injury_data.severity.getD "conservative"
  let treatment_type := injury_data.treatment.getD "conservative"
  let base_weeks := lookup_base_weeks injury_type treatment_type injury_severity
  let modifiers := calculate_recovery_modifiers patient_factors treatment_factors injury_data
  let adjusted_weeks := (base_weeks : ℚ) * modifiers.total_modifier
  { total_recovery_weeks := round1 adjusted_weeks
    base_recovery_weeks := base_weeks
    modifying_factors := modifiers
    phase_timelines :=
      build_phase_timelines adjusted_weeks (get_phase_distribution injury_type treatment_type)
    confidence_intervals := calculate_confidence_intervals adjusted_weeks modifiers }

/-! ## `rehabilitation_logic.py`: rehab phase determination -/

/-- One threshold triple of the `injury_thresholds` table. -/
structure PhaseThresholds where
  lsi : ℚ
  rfd : ℚ
  pain : ℚ
deriving Repr, DecidableEq

/-- The three cut-point rows for one injury type. -/
structure InjuryPhaseThresholds where
  early_to_mid : PhaseThresholds
  mid_to_late : PhaseThresholds
  late_to_rts : PhaseThresholds
deriving Repr, DecidableEq

/-- The `injury_thresholds` table of `get_rehab_phase`
(rehabilitation_logic.py, lines 22-66); unknown injury types use the ACL
row. -/
def injury_thresholds (injury_type : String) : InjuryPhaseThresholds :=
  if injury_type = "ACL" then ⟨⟨70, 60, 4⟩, ⟨85, 80, 2⟩, ⟨90, 90, 1⟩⟩
  else if injury_type = "Achilles" then ⟨⟨65, 50, 5⟩, ⟨80, 75, 3⟩, ⟨90, 85, 1⟩⟩
  else if injury_type = "Hamstring" then ⟨⟨75, 65, 4⟩, ⟨85, 80, 2⟩, ⟨90, 90, 1⟩⟩
  else if injury_type = "Patellar Tendon" then ⟨⟨70, 55, 4⟩, ⟨85, 75, 2⟩, ⟨90, 85, 1⟩⟩
  else if injury_type = "Rotator Cuff" then ⟨⟨65, 50, 5⟩, ⟨80, 70, 3⟩, ⟨85, 80, 1⟩⟩
  else if injury_type = "Groin" then ⟨⟨70, 60, 4⟩, ⟨85, 80, 2⟩, ⟨90, 85, 1⟩⟩
  else if injury_type = "Proximal Hamstring Tendinopathy" then ⟨⟨70, 60, 5⟩, ⟨80, 75, 3⟩, ⟨90, 85, 1⟩⟩
  else if injury_type = "ATFL Ligament Injury" then ⟨⟨75, 65, 4⟩, ⟨85, 80, 2⟩, ⟨90, 90, 1⟩⟩
  else ⟨⟨70, 60, 4⟩, ⟨85, 80, 2⟩, ⟨90, 90, 1⟩⟩

/-- The record returned by `get_rehab_phase`, without the free-text
`message` (f-string formatting of the metrics); the phase label and the
echoed metrics are modelled. -/
structure RehabPhaseResult where
  phase : String
  lsi : ℚ
  rfd : ℚ
  pain : ℚ
  peak_force : ℚ
deriving Repr, DecidableEq

/-- `get_rehab_phase` (rehabilitation_logic.py, lines 6-115): pain above the
early cut forces Early; then the LSI/RFD/pain cut-point chain. -/
def get_rehab_phase (injury_type : String) (peak_force lsi rfd pain_score : ℚ) :
    RehabPhaseResult :=
  let t := injury_thresholds injury_type
  let phase :=
    if t.early_to_mid.pain < pain_score then "Early"
    else if lsi < t.early_to_mid.lsi ∨ rfd < t.early_to_mid.rfd then "Early"
    else if t.mid_to_late.pain < pain_score ∨ lsi < t.mid_to_late.lsi
        ∨ rfd < t.mid_to_late.rfd then "Mid"
    else if t.late_to_rts.pain < pain_score ∨ lsi < t.late_to_rts.lsi
        ∨ rfd < t.late_to_rts.rfd then "Late"
    else "Return to Sport"
  { phase := phase, lsi := lsi, rfd := rfd, pain := pain_score, peak_force := peak_force }

/-! ## Concrete request records used to exercise the definitions -/

/-- A patient profile with every optional key absent. -/
def emptyPatientProfile : PatientProfile :=
  { unstable_angina := none, uncontrolled_arrhythmia := none,
    severe_pulmonary_edema := none, blood_glucose := none, fever := none,
    systemic_infection := none, recent_cardiac_event := none, age := none,
    systolic_bp := none, pregnant := none, trimester := none, medications := [] }

/-- Exercise data with every optional key absent. -/
def emptyExerciseData : ExerciseData :=
  { exType := none, intensity := none, position := none, contact_risk := none,
    cognitive_demand := none, name := none, load_bearing := none,
    rom_requirement := none }

/-- Checker injury data with every optional key absent. -/
def emptyExerciseInjuryData : ExerciseInjuryData :=
  { injury_type := none, phase := none, current_pain := none, rom_limitation := none }

/-- Patient factors with every optional key absent: every modifier defaults
to 1.0. -/
def emptyPatientFactors : PatientFactors :=
  { age := none, fitness_level := none, expected_compliance := none,
    comorbidities := [], psychological_readiness := none }

/-- Treatment factors with the quality key absent. -/
def emptyTreatmentFactors : TreatmentFactors := { treatment_quality := none }

/-- The ACL + surgical prediction request of the spec example scenario 5. -/
def aclSurgicalInjury : InjuryData :=
  { injury_type := some "ACL", severity := none, treatment := some "surgical",
    graft_type := none, meniscus_tear := none, location := none,
    mri_grade := none, pathology := none }

/-- A grade-3 proximal-tendon hamstring prediction request. -/
def hamstringSevereInjury : InjuryData :=
  { injury_type := some "Hamstring", severity := none, treatment := some "grade_3",
    graft_type := none, meniscus_tear := none, location := some "proximal_tendon",
    mri_grade := some 3, pathology := none }

/-- Psychological data with every key absent: every factor defaults to 50. -/
def emptyPsychologicalData : PsychologicalData :=
  { confidence_score := none, fear_score := none, motivation_score := none }

/-- Injury history with every key absent. -/
def emptyInjuryHistory : InjuryHistory :=
  { months_since_injury := none, previous_injury_count := none, rehab_compliance := none }

/-- Psychological data scoring exactly 90. -/
def psychData90 : PsychologicalData :=
  { confidence_score := some 90, fear_score := some 10, motivation_score := some 90 }

/-- Injury history scoring exactly 90. -/
def injuryHistory90 : InjuryHistory :=
  { months_since_injury := some 12, previous_injury_count := some 0,
    rehab_compliance := some 70 }

/-- A strength-testing input with a 5:1 asymmetry on one muscle group. -/
def lopsidedStrengthData : List (String × ℚ) :=
  [("knee_extension_injured", 500), ("knee_extension_uninjured", 100)]

/-! ## Rounding facts -/

theorem roundHalfEven_le (x : ℚ) : (roundHalfEven x : ℚ) ≤ x + 1/2 := by
  unfold roundHalfEven
  have hfl : (⌊x⌋ : ℚ) ≤ x := Int.floor_le x
  split
  · linarith
  · split
    · push_cast
      linarith
    · split <;> · push_cast; rename_i h1 h2 _; linarith

theorem le_roundHalfEven (x : ℚ) : x - 1/2 ≤ (roundHalfEven x : ℚ) := by
  unfold roundHalfEven
  have hfl : x - 1 < (⌊x⌋ : ℚ) := Int.sub_one_lt_floor x
  split
  · rename_i h; linarith
  · split
    · push_cast; linarith
    · split <;> · push_cast; linarith

theorem roundHalfEven_nonneg (x : ℚ) (hx : 0 ≤ x) : 0 ≤ roundHalfEven x := by
  unfold roundHalfEven
  have hfl : (0 : ℤ) ≤ ⌊x⌋ := Int.floor_nonneg.mpr hx
  split
  · exact hfl
  · split
    · omega
    · split <;> omega

theorem roundHalfEven_le_int (x : ℚ) (n : ℤ) (h : x ≤ n) : roundHalfEven x ≤ n := by
  have hfl : ⌊x⌋ ≤ n := by
    have := Int.floor_le_floor h
    simpa using this
  unfold roundHalfEven
  split
  · exact hfl
  · rename_i h1
    have hne : ⌊x⌋ ≠ n := by
      intro he
      have : x - ⌊x⌋ < 1/2 := by
        have : (⌊x⌋ : ℚ) = (n : ℚ) := by exact_mod_cast he
        rw [this]
        linarith
      exact h1 this
    split
    · omega
    · split <;> omega

theorem round1_nonneg (x : ℚ) (hx : 0 ≤ x) : 0 ≤ round1 x := by
  unfold round1
  have h := roundHalfEven_nonneg (x * 10) (by linarith)
  have h2 : (0 : ℚ) ≤ (roundHalfEven (x * 10) : ℚ) := by exact_mod_cast h
  linarith

theorem le_round1 (x : ℚ) : x - 1/20 ≤ round1 x := by
  unfold round1
  have h := le_roundHalfEven (x * 10)
  linarith

theorem round1_le (x : ℚ) : round1 x ≤ x + 1/20 := by
  unfold round1
  have h := roundHalfEven_le (x * 10)
  linarith

theorem round1_eq_low (x : ℚ) (n : ℤ) (h1 : (n : ℚ) ≤ x * 10) (h2 : x * 10 - n < 1/2) :
    round1 x = n / 10 := by
  have hfl : ⌊x * 10⌋ = n := by
    rw [Int.floor_eq_iff]
    constructor
    · exact h1
    · linarith
  unfold round1 roundHalfEven
  rw [hfl, if_pos (by linarith)]

theorem round1_eq_high (x : ℚ) (n : ℤ) (h1 : 1/2 < x * 10 - n) (h2 : x * 10 < n + 1) :
    round1 x = (n + 1) / 10 := by
  have hfl : ⌊x * 10⌋ = n := by
    rw [Int.floor_eq_iff]
    constructor
    · linarith
    · linarith
  unfold round1 roundHalfEven
  rw [hfl, if_neg (by linarith), if_pos (by linarith)]
  push_cast
  ring

theorem round1_le_hundred (x : ℚ) (h : x ≤ 100) : round1 x ≤ 100 := by
  unfold round1
  have h1 : roundHalfEven (x * 10) ≤ (1000 : ℤ) :=
    roundHalfEven_le_int (x * 10) 1000 (by push_cast; linarith)
  have h2 : (roundHalfEven (x * 10) : ℚ) ≤ 1000 := by exact_mod_cast h1
  linarith

/-! ## Modifier facts -/

theorem filter_ne_one_foldl_mul (l : List ℚ) (init : ℚ) :
    (l.filter (fun v => v ≠ 1)).foldl (· * ·) init = l.foldl (· * ·) init := by
  induction l generalizing init with
  | nil => rfl
  | cons a t ih =>
    by_cases ha : a = 1
    · subst ha
      simp only [List.filter_cons, List.foldl_cons]
      have hd : (decide ((1 : ℚ) ≠ 1)) = false := by simp
      rw [hd]
      simp only [Bool.false_eq_true, if_false, ih, mul_one]
    · have hd : (decide (a ≠ 1)) = true := by simp [ha]
      simp only [List.filter_cons, hd, if_true, List.foldl_cons, ih]

theorem total_modifier_eq_prod (pf : PatientFactors) (tf : TreatmentFactors)
    (idata : InjuryData) :
    (calculate_recovery_modifiers pf tf idata).total_modifier
      = age_modifier (pf.age.getD 30)
        * fitness_modifier (pf.fitness_level.getD "average")
        * compliance_modifier (pf.expected_compliance.getD "good")
        * min (comorbidity_raw pf.comorbidities) 2
        * treatment_quality_modifier (tf.treatment_quality.getD "standard")
        * psychological_modifier (pf.psychological_readiness.getD 70)
        * calculate_injury_specific_modifiers idata := by
  simp only [calculate_recovery_modifiers]
  rw [filter_ne_one_foldl_mul]
  simp only [List.foldl_cons, List.foldl_nil]
  ring

theorem le_age_modifier (x : ℚ) : 0.85 ≤ age_modifier x := by
  unfold age_modifier
  split_ifs <;> norm_num

theorem le_fitness_modifier (s : String) : 0.8 ≤ fitness_modifier s := by
  unfold fitness_modifier
  split_ifs <;> norm_num

theorem le_compliance_modifier (s : String) : 0.85 ≤ compliance_modifier s := by
  unfold compliance_modifier
  split_ifs <;> norm_num

theorem le_treatment_quality_modifier (s : String) : 0.9 ≤ treatment_quality_modifier s := by
  unfold treatment_quality_modifier
  split_ifs <;> norm_num

theorem le_psychological_modifier (x : ℚ) : 0.95 ≤ psychological_modifier x := by
  unfold psychological_modifier
  split_ifs <;> norm_num

theorem comorbidity_foldl_ge (cs : List String) (init : ℚ) (h : 1 ≤ init) :
    1 ≤ cs.foldl
      (fun acc condition =>
        match comorbidity_impact condition with
        | some m => acc * m
        | none => acc) init := by
  induction cs generalizing init with
  | nil => simpa using h
  | cons c t ih =>
    simp only [List.foldl_cons]
    apply ih
    unfold comorbidity_impact
    split_ifs <;> simp <;>
      first
        | exact h
        | exact le_trans h (le_mul_of_one_le_right (by linarith) (by norm_num))

theorem one_le_comorbidity_raw (cs : List String) : 1 ≤ comorbidity_raw cs := by
  unfold comorbidity_raw
  exact comorbidity_foldl_ge cs 1 le_rfl

theorem le_injury_specific_modifiers (d : InjuryData) :
    0.7 ≤ calculate_injury_specific_modifiers d := by
  simp only [calculate_injury_specific_modifiers]
  split_ifs <;> norm_num

theorem le_total_modifier (pf : PatientFactors) (tf : TreatmentFactors)
    (idata : InjuryData) :
    0.34 ≤ (calculate_recovery_modifiers pf tf idata).total_modifier := by
  rw [total_modifier_eq_prod]
  have ha := le_age_modifier (pf.age.getD 30)
  have hf := le_fitness_modifier (pf.fitness_level.getD "average")
  have hc := le_compliance_modifier (pf.expected_compliance.getD "good")
  have hco : (1 : ℚ) ≤ min (comorbidity_raw pf.comorbidities) 2 :=
    le_min (one_le_comorbidity_raw pf.comorbidities) (by norm_num)
  have ht := le_treatment_quality_modifier (tf.treatment_quality.getD "standard")
  have hp := le_psychological_modifier (pf.psychological_readiness.getD 70)
  have hi := le_injury_specific_modifiers idata
  calc (0.34 : ℚ) ≤ 0.85 * 0.8 * 0.85 * 1 * 0.9 * 0.95 * 0.7 := by norm_num
    _ ≤ age_modifier (pf.age.getD 30)
        * fitness_modifier (pf.fitness_level.getD "average")
        * compliance_modifier (pf.expected_compliance.getD "good")
        * min (comorbidity_raw pf.comorbidities) 2
        * treatment_quality_modifier (tf.treatment_quality.getD "standard")
        * psychological_modifier (pf.psychological_readiness.getD 70)
        * calculate_injury_specific_modifiers idata := by
      gcongr

theorem uncertainty_foldl_count (l : List ℚ) (init : ℚ) :
    l.foldl (fun acc v => if 1.2 < v ∨ v < 0.8 then acc + 0.05 else acc) init
      = init + 0.05 * (l.countP (fun v => decide (1.2 < v ∨ v < 0.8)) : ℚ) := by
  induction l generalizing init with
  | nil => simp
  | cons a t ih =>
    simp only [List.foldl_cons, List.countP_cons, ih]
    by_cases h : (1.2 < a ∨ a < 0.8)
    · simp only [h, if_true, decide_eq_true_eq]
      push_cast
      ring
    · simp [h]

theorem modifier_uncertainty_eq_count (m : Modifiers) :
    modifier_uncertainty m
      = 0.05 * (m.individual.countP (fun v => decide (1.2 < v ∨ v < 0.8)) : ℚ) := by
  unfold modifier_uncertainty
  rw [uncertainty_foldl_count]
  ring

theorem modifier_uncertainty_nonneg (m : Modifiers) : 0 ≤ modifier_uncertainty m := by
  rw [modifier_uncertainty_eq_count]
  positivity

/-! ## Base-duration table facts -/

theorem two_le_acl_recovery_times (k : String) (w : ℕ)
    (h : acl_recovery_times k = some w) : 2 ≤ w := by
  unfold acl_recovery_times at h
  split_ifs at h <;> simp_all <;> omega

theorem two_le_achilles_recovery_times (k : String) (w : ℕ)
    (h : achilles_recovery_times k = some w) : 2 ≤ w := by
  unfold achilles_recovery_times at h
  split_ifs at h <;> simp_all <;> omega

theorem two_le_hamstring_recovery_times (k : String) (w : ℕ)
    (h : hamstring_recovery_times k = some w) : 2 ≤ w := by
  unfold hamstring_recovery_times at h
  split_ifs at h <;> simp_all <;> omega

theorem two_le_meniscus_recovery_times (k : String) (w : ℕ)
    (h : meniscus_recovery_times k = some w) : 2 ≤ w := by
  unfold meniscus_recovery_times at h
  split_ifs at h <;> simp_all <;> omega

theorem two_le_rotator_cuff_recovery_times (k : String) (w : ℕ)
    (h : rotator_cuff_recovery_times k = some w) : 2 ≤ w := by
  unfold rotator_cuff_recovery_times at h
  split_ifs at h <;> simp_all <;> omega

theorem two_le_ankle_sprain_recovery_times (k : String) (w : ℕ)
    (h : ankle_sprain_recovery_times k = some w) : 2 ≤ w := by
  unfold ankle_sprain_recovery_times at h
  split_ifs at h <;> simp_all <;> omega

theorem two_le_base_injury_timelines (injury k : String) (w : ℕ)
    (h : base_injury_timelines injury k = some w) : 2 ≤ w := by
  unfold base_injury_timelines at h
  split_ifs at h <;>
    first
      | exact two_le_acl_recovery_times k w h
      | exact two_le_achilles_recovery_times k w h
      | exact two_le_hamstring_recovery_times k w h
      | exact two_le_meniscus_recovery_times k w h
      | exact two_le_rotator_cuff_recovery_times k w h
      | exact two_le_ankle_sprain_recovery_times k w h

theorem two_le_lookup_base_weeks (injury treatment severity : String) :
    2 ≤ lookup_base_weeks injury treatment severity := by
  unfold lookup_base_weeks
  cases ht : base_injury_timelines injury treatment with
  | some w => simpa using two_le_base_injury_timelines injury treatment w ht
  | none =>
    cases hs : base_injury_timelines injury severity with
    | some w => simpa using two_le_base_injury_timelines injury severity w hs
    | none =>
      cases hc : base_injury_timelines injury "conservative" with
      | some w => simpa [hc] using two_le_base_injury_timelines injury "conservative" w hc
      | none => simp [hc]

/-! ## C1 -/

/-- C1: the overall safety verdict of `determine_safety_level` is the pure
priority-ordered function of the finding counts stated by the spec: any
finding in the emergency/absolute tier gives UNSAFE regardless of the other
tiers; otherwise ≥3 relative or ≥4 precaution findings give HIGH_RISK;
otherwise ≥1 relative or ≥2 precaution findings give MODERATE_RISK;
otherwise ≥1 precaution finding gives LOW_RISK; otherwise SAFE — for every
combination of findings. -/
theorem c1_safety_verdict_priority (c : Contraindications) :
    (determine_safety_level c).level =
      spec_safety_verdict c.absolute.length c.relative.length c.precautions.length := by
  simp only [determine_safety_level, spec_safety_verdict]
  split_ifs <;> first | rfl | omega

/-! ## C2 -/

/-- C2 counterexample: the code computes LSI as injured/uninjured (capped at
120 for hop tests, uncapped for strength), not as min/max; at the positive
pair (2, 1) the hop LSI is 120 and the strength LSI 200, while the claimed
min/max formula gives 50, and swapping the limbs gives 50 — so the claimed
formula and the claimed symmetry both fail, cap included. -/
theorem c2_lsi_symmetry_counterexample :
    hop_test_lsi false 2 1 = 120 ∧ hop_test_lsi false 1 2 = 50
      ∧ strength_lsi 2 1 = 200 ∧ strength_lsi 1 2 = 50
      ∧ min (2 : ℚ) 1 / max (2 : ℚ) 1 * 100 = 50
      ∧ hop_test_lsi false 2 1 ≠ hop_test_lsi false 1 2
      ∧ strength_lsi 2 1 ≠ strength_lsi 1 2 := by
  norm_num [hop_test_lsi, strength_lsi]

/-- C2 amended: when the injured value does not exceed the uninjured value
(0 < a ≤ b), the computed LSI for a non-reverse-scored test equals
(min(a,b)/max(a,b))×100 — for strength directly, for hop tests also after the
cap at 120 (which cannot bite there) — and the per-test reverse-scoring flag
inverts the ratio to uninjured/injured so a faster time scores higher; for
injured > uninjured the code computes injured/uninjured×100 instead, so
LSI(a,b) = LSI(b,a) does not hold in general. -/
theorem c2_lsi_formula_amended (a b : ℚ) (ha : 0 < a) (hab : a ≤ b) :
    strength_lsi a b = min a b / max a b * 100
      ∧ hop_test_lsi false a b = min a b / max a b * 100
      ∧ hop_test_lsi true a b = min (b / a * 100) 120 := by
  have hb : 0 < b := lt_of_lt_of_le ha hab
  have hmin : min a b = a := min_eq_left hab
  have hmax : max a b = b := max_eq_right hab
  refine ⟨by rw [hmin, hmax]; rfl, ?_, by rfl⟩
  have hd : a / b ≤ 1 := div_le_one_of_le₀ hab hb.le
  have hcap : a / b * 100 ≤ 120 := by nlinarith
  rw [hmin, hmax]
  unfold hop_test_lsi
  simp [min_eq_left hcap]

/-- C2 witness: the amended LSI formula at the concrete pair (85, 100). -/
theorem c2_lsi_formula_amended_witness :
    strength_lsi 85 100 = min (85 : ℚ) 100 / max (85 : ℚ) 100 * 100
      ∧ hop_test_lsi false 85 100 = min (85 : ℚ) 100 / max (85 : ℚ) 100 * 100
      ∧ hop_test_lsi true 85 100 = min ((100 : ℚ) / 85 * 100) 120 :=
  c2_lsi_formula_amended 85 100 (by norm_num) (by norm_num)

/-! ## C5 -/

/-- C5 counterexample: for the unknown combination injury "Frobnitz",
treatment "laser", severity "odd", the predictor does not fail — it silently
substitutes the ACL fallback row and its conservative entry, returning base
weeks 16, whereas the spec-modelled strict lookup has no entry. -/
theorem c5_unknown_configuration_counterexample :
    lookup_base_weeks "Frobnitz" "laser" "odd" = 16
      ∧ spec_lookup_base_weeks "Frobnitz" "laser" = none
      ∧ (predict_recovery_timeline
          { injury_type := some "Frobnitz", severity := some "odd",
            treatment := some "laser", graft_type := none, meniscus_tear := none,
            location := none, mri_grade := none, pathology := none }
          emptyPatientFactors emptyTreatmentFactors).base_recovery_weeks = 16 := by
  refine ⟨by decide, by decide, by decide⟩

/-- C5 amended: the timeline predictor never fails on an unknown injury type
× treatment path combination; an unknown injury type falls back to the ACL
row, and a treatment absent from the row falls back to the severity key,
then to the row's conservative entry (else 12), always yielding a positive
base duration. -/
theorem c5_fallback_amended (injury treatment severity : String)
    (h : injury ≠ "ACL" ∧ injury ≠ "Achilles" ∧ injury ≠ "Hamstring"
      ∧ injury ≠ "Meniscus" ∧ injury ≠ "Rotator_Cuff" ∧ injury ≠ "Ankle_Sprain") :
    lookup_base_weeks injury treatment severity = lookup_base_weeks "ACL" treatment severity
      ∧ 0 < lookup_base_weeks injury treatment severity := by
  obtain ⟨h1, h2, h3, h4, h5, h6⟩ := h
  have hrow : ∀ k, base_injury_timelines injury k = acl_recovery_times k := by
    intro k
    unfold base_injury_timelines
    simp [h1, h2, h3, h4, h5, h6]
  constructor
  · unfold lookup_base_weeks
    rw [hrow, hrow, hrow]
    rfl
  · have := two_le_lookup_base_weeks injury treatment severity
    omega

/-- C5 witness: the fallback equality at the concrete unknown injury type
"Frobnitz". -/
theorem c5_fallback_amended_witness :
    lookup_base_weeks "Frobnitz" "laser" "odd" = lookup_base_weeks "ACL" "laser" "odd"
      ∧ 0 < lookup_base_weeks "Frobnitz" "laser" "odd" :=
  c5_fallback_amended "Frobnitz" "laser" "odd"
    ⟨by decide, by decide, by decide, by decide, by decide, by decide⟩

/-! ## C6 -/

/-- C6 counterexample: the individual modifiers are never clamped to
[0.5, 2.0] — for a grade-3 proximal-tendon hamstring the injury-specific
modifier is 1.4 × 1.5 = 2.1 > 2.0 and is folded into the total unclamped:
base 12 weeks with all other modifiers 1.0 yields totalWeeks 25.2, not the
24 that clamping at 2.0 would give. -/
theorem c6_clamp_counterexample :
    calculate_injury_specific_modifiers hamstringSevereInjury = 21/10
      ∧ ¬ ((21 : ℚ)/10 ≤ 2)
      ∧ (predict_recovery_timeline hamstringSevereInjury emptyPatientFactors
          emptyTreatmentFactors).base_recovery_weeks = 12
      ∧ (predict_recovery_timeline hamstringSevereInjury emptyPatientFactors
          emptyTreatmentFactors).modifying_factors.total_modifier = 21/10
      ∧ (predict_recovery_timeline hamstringSevereInjury emptyPatientFactors
          emptyTreatmentFactors).total_recovery_weeks = 126/5
      ∧ ((126 : ℚ)/5) ≠ 12 * 2 := by
  have hinj : calculate_injury_specific_modifiers hamstringSevereInjury = 21/10 := by
    simp [calculate_injury_specific_modifiers, hamstringSevereInjury]
    norm_num
  have htot : (calculate_recovery_modifiers emptyPatientFactors emptyTreatmentFactors
      hamstringSevereInjury).total_modifier = 21/10 := by
    rw [total_modifier_eq_prod, hinj]
    simp [age_modifier, fitness_modifier, compliance_modifier, comorbidity_raw,
      treatment_quality_modifier, psychological_modifier, emptyPatientFactors,
      emptyTreatmentFactors]
    norm_num
  have hbase : lookup_base_weeks "Hamstring" "grade_3" "conservative" = 12 := by decide
  have hfield : (predict_recovery_timeline hamstringSevereInjury emptyPatientFactors
      emptyTreatmentFactors).total_recovery_weeks
      = round1 ((lookup_base_weeks "Hamstring" "grade_3" "conservative" : ℚ)
          * (calculate_recovery_modifiers emptyPatientFactors emptyTreatmentFactors
              hamstringSevereInjury).total_modifier) := rfl
  refine ⟨hinj, by norm_num, by decide, htot, ?_, by norm_num⟩
  rw [hfield, htot, hbase]
  have h252 : ((12 : ℕ) : ℚ) * (21/10) = 126/5 := by norm_num
  rw [h252, round1_eq_low (126/5) 252 (by norm_num) (by norm_num)]
  norm_num

/-- C6 amended: totalWeeks = baseWeeks × the product of the seven individual
modifiers, with NO clamping of the individual modifiers to [0.5, 2.0] (they
are table-driven, and composite injury-specific factors can exceed 2.0);
only the combined comorbidity modifier is capped at 2.0 before being folded
into the total. -/
theorem c6_total_weeks_amended (idata : InjuryData) (pf : PatientFactors)
    (tf : TreatmentFactors) :
    (calculate_recovery_modifiers pf tf idata).total_modifier
        = (calculate_recovery_modifiers pf tf idata).age_modifier
          * (calculate_recovery_modifiers pf tf idata).fitness_modifier
          * (calculate_recovery_modifiers pf tf idata).compliance_modifier
          * (calculate_recovery_modifiers pf tf idata).comorbidity_modifier
          * (calculate_recovery_modifiers pf tf idata).treatment_modifier
          * (calculate_recovery_modifiers pf tf idata).psychological_modifier
          * (calculate_recovery_modifiers pf tf idata).injury_specific_modifier
      ∧ (calculate_recovery_modifiers pf tf idata).comorbidity_modifier ≤ 2
      ∧ (predict_recovery_timeline idata pf tf).total_recovery_weeks
        = round1 (((predict_recovery_timeline idata pf tf).base_recovery_weeks : ℚ)
            * (predict_recovery_timeline idata pf tf).modifying_factors.total_modifier) := by
  refine ⟨?_, min_le_right _ _, rfl⟩
  exact total_modifier_eq_prod pf tf idata

/-! ## C7 -/

/-- C7: the uncertainty fraction is the base 0.15 plus 0.05 for every
individual modifier above 1.2 or below 0.8, capped at 0.4; the 80% and 95%
intervals are totalWeeks ± z · uncertainty · totalWeeks with z = 1.28 and
1.96 (reported to one decimal); and for the ACL surgical scenario with every
modifier 1.0, totalWeeks = 24, the uncertainty is 15% and the 80% interval
is [19.4, 28.6] (the 95% interval [16.9, 31.1]). -/
theorem c7_uncertainty_and_intervals :
    (∀ (m : Modifiers) (p : ℚ),
        modifier_uncertainty m
          = 0.05 * (m.individual.countP (fun v => decide (1.2 < v ∨ v < 0.8)) : ℚ)
        ∧ (calculate_confidence_intervals p m).uncertainty_percentage
          = round1 (min (0.15 + modifier_uncertainty m) 0.4 * 100)
        ∧ (calculate_confidence_intervals p m).range80.lower
          = round1 (p - 1.28 * (p * min (0.15 + modifier_uncertainty m) 0.4))
        ∧ (calculate_confidence_intervals p m).range80.upper
          = round1 (p + 1.28 * (p * min (0.15 + modifier_uncertainty m) 0.4))
        ∧ (calculate_confidence_intervals p m).range95.lower
          = round1 (p - 1.96 * (p * min (0.15 + modifier_uncertainty m) 0.4))
        ∧ (calculate_confidence_intervals p m).range95.upper
          = round1 (p + 1.96 * (p * min (0.15 + modifier_uncertainty m) 0.4)))
    ∧ (predict_recovery_timeline aclSurgicalInjury emptyPatientFactors
        emptyTreatmentFactors).total_recovery_weeks = 24
    ∧ (predict_recovery_timeline aclSurgicalInjury emptyPatientFactors
        emptyTreatmentFactors).confidence_intervals.uncertainty_percentage = 15
    ∧ (predict_recovery_timeline aclSurgicalInjury emptyPatientFactors
        emptyTreatmentFactors).confidence_intervals.range80.lower = 97/5
    ∧ (predict_recovery_timeline aclSurgicalInjury emptyPatientFactors
        emptyTreatmentFactors).confidence_intervals.range80.upper = 143/5
    ∧ (predict_recovery_timeline aclSurgicalInjury emptyPatientFactors
        emptyTreatmentFactors).confidence_intervals.range95.lower = 169/10
    ∧ (predict_recovery_timeline aclSurgicalInjury emptyPatientFactors
        emptyTreatmentFactors).confidence_intervals.range95.upper = 311/10 := by
  have hm : calculate_recovery_modifiers emptyPatientFactors emptyTreatmentFactors
      aclSurgicalInjury
      = { age_modifier := 1, fitness_modifier := 1, compliance_modifier := 1,
          comorbidity_modifier := 1, treatment_modifier := 1, psychological_modifier := 1,
          injury_specific_modifier := 1, total_modifier := 1 } := by
    simp only [calculate_recovery_modifiers, emptyPatientFactors, emptyTreatmentFactors,
      aclSurgicalInjury]
    simp [age_modifier, fitness_modifier, compliance_modifier, comorbidity_raw,
      treatment_quality_modifier, psychological_modifier,
      calculate_injury_specific_modifiers, List.filter, List.foldl]
    norm_num
  have hbase : lookup_base_weeks "ACL" "surgical" "conservative" = 24 := by decide
  have hadj : ((lookup_base_weeks "ACL" "surgical" "conservative" : ℕ) : ℚ)
      * (calculate_recovery_modifiers emptyPatientFactors emptyTreatmentFactors
          aclSurgicalInjury).total_modifier = 24 := by
    rw [hm, hbase]
    norm_num
  have hmu : modifier_uncertainty
      { age_modifier := 1, fitness_modifier := 1, compliance_modifier := 1,
        comorbidity_modifier := 1, treatment_modifier := 1, psychological_modifier := 1,
        injury_specific_modifier := 1, total_modifier := (1 : ℚ) } = 0 := by
    norm_num [modifier_uncertainty, Modifiers.individual, List.foldl]
  have hfield : (predict_recovery_timeline aclSurgicalInjury emptyPatientFactors
      emptyTreatmentFactors).confidence_intervals
      = calculate_confidence_intervals
          (((lookup_base_weeks "ACL" "surgical" "conservative" : ℕ) : ℚ)
            * (calculate_recovery_modifiers emptyPatientFactors emptyTreatmentFactors
                aclSurgicalInjury).total_modifier)
          (calculate_recovery_modifiers emptyPatientFactors emptyTreatmentFactors
            aclSurgicalInjury) := rfl
  have hci : (predict_recovery_timeline aclSurgicalInjury emptyPatientFactors
      emptyTreatmentFactors).confidence_intervals
      = calculate_confidence_intervals 24
          { age_modifier := 1, fitness_modifier := 1, compliance_modifier := 1,
            comorbidity_modifier := 1, treatment_modifier := 1, psychological_modifier := 1,
            injury_specific_modifier := 1, total_modifier := 1 } := by
    rw [hfield, hadj, hm]
  have htu : min ((0.15 : ℚ) + 0) 0.4 = 0.15 := by norm_num
  refine ⟨?_, ?_, ?_, ?_, ?_, ?_, ?_⟩
  · intro m p
    exact ⟨modifier_uncertainty_eq_count m, rfl, rfl, rfl, rfl, rfl⟩
  · have hf2 : (predict_recovery_timeline aclSurgicalInjury emptyPatientFactors
        emptyTreatmentFactors).total_recovery_weeks
        = round1 (((lookup_base_weeks "ACL" "surgical" "conservative" : ℕ) : ℚ)
            * (calculate_recovery_modifiers emptyPatientFactors emptyTreatmentFactors
                aclSurgicalInjury).total_modifier) := rfl
    rw [hf2, hadj, round1_eq_low 24 240 (by norm_num) (by norm_num)]
    norm_num
  · rw [hci]
    show round1 (min (0.15 + modifier_uncertainty _) 0.4 * 100) = 15
    rw [hmu, htu]
    rw [show (0.15 : ℚ) * 100 = 15 from by norm_num]
    rw [round1_eq_low 15 150 (by norm_num) (by norm_num)]
    norm_num
  · rw [hci]
    show round1 (24 - 1.28 * (24 * min (0.15 + modifier_uncertainty _) 0.4)) = 97/5
    rw [hmu, htu]
    have hx : (24 : ℚ) - 1.28 * (24 * 0.15) = 2424/125 := by norm_num
    rw [hx, round1_eq_high (2424/125) 193 (by norm_num) (by norm_num)]
    norm_num
  · rw [hci]
    show round1 (24 + 1.28 * (24 * min (0.15 + modifier_uncertainty _) 0.4)) = 143/5
    rw [hmu, htu]
    have hx : (24 : ℚ) + 1.28 * (24 * 0.15) = 3576/125 := by norm_num
    rw [hx, round1_eq_low (3576/125) 286 (by norm_num) (by norm_num)]
    norm_num
  · rw [hci]
    show round1 (24 - 1.96 * (24 * min (0.15 + modifier_uncertainty _) 0.4)) = 169/10
    rw [hmu, htu]
    have hx : (24 : ℚ) - 1.96 * (24 * 0.15) = 2118/125 := by norm_num
    rw [hx, round1_eq_low (2118/125) 169 (by norm_num) (by norm_num)]
    norm_num
  · rw [hci]
    show round1 (24 + 1.96 * (24 * min (0.15 + modifier_uncertainty _) 0.4)) = 311/10
    rw [hmu, htu]
    have hx : (24 : ℚ) + 1.96 * (24 * 0.15) = 3882/125 := by norm_num
    rw [hx, round1_eq_high (3882/125) 310 (by norm_num) (by norm_num)]
    norm_num

/-! ## C8 -/

/-- C8: for every input, the reported totalWeeks is strictly positive and
the lower bounds of the 80% and 95% confidence intervals are never below 0
(the positive base weeks and positive modifiers keep the point estimate
above 0.68 weeks, and the uncertainty cap at 0.4 keeps even the 95% lower
bound positive before rounding). -/
theorem c8_timeline_positive (idata : InjuryData) (pf : PatientFactors)
    (tf : TreatmentFactors) :
    0 < (predict_recovery_timeline idata pf tf).total_recovery_weeks
      ∧ 0 ≤ (predict_recovery_timeline idata pf tf).confidence_intervals.range80.lower
      ∧ 0 ≤ (predict_recovery_timeline idata pf tf).confidence_intervals.range95.lower := by
  have hbase : 2 ≤ lookup_base_weeks (idata.injury_type.getD "ACL")
      (idata.treatment.getD "conservative") (idata.severity.getD "conservative") :=
    two_le_lookup_base_weeks _ _ _
  have hB : (2 : ℚ) ≤ ((lookup_base_weeks (idata.injury_type.getD "ACL")
      (idata.treatment.getD "conservative") (idata.severity.getD "conservative") : ℕ) : ℚ) := by
    exact_mod_cast hbase
  have hT : (0.34 : ℚ) ≤ (calculate_recovery_modifiers pf tf idata).total_modifier :=
    le_total_modifier pf tf idata
  have hA : (0.68 : ℚ) ≤ ((lookup_base_weeks (idata.injury_type.getD "ACL")
      (idata.treatment.getD "conservative") (idata.severity.getD "conservative") : ℕ) : ℚ)
      * (calculate_recovery_modifiers pf tf idata).total_modifier := by
    calc (0.68 : ℚ) = 2 * 0.34 := by norm_num
      _ ≤ ((lookup_base_weeks (idata.injury_type.getD "ACL")
            (idata.treatment.getD "conservative") (idata.severity.getD "conservative") : ℕ) : ℚ)
          * (calculate_recovery_modifiers pf tf idata).total_modifier := by
        gcongr
  have htu0 : 0 ≤ min (0.15 + modifier_uncertainty
      (calculate_recovery_modifiers pf tf idata)) 0.4 :=
    le_min (by linarith [modifier_uncertainty_nonneg (calculate_recovery_modifiers pf tf idata)])
      (by norm_num)
  have htu4 : min (0.15 + modifier_uncertainty
      (calculate_recovery_modifiers pf tf idata)) 0.4 ≤ 0.4 := min_le_right _ _
  refine ⟨?_, ?_, ?_⟩
  · have hfield : (predict_recovery_timeline idata pf tf).total_recovery_weeks
        = round1 (((lookup_base_weeks (idata.injury_type.getD "ACL")
            (idata.treatment.getD "conservative") (idata.severity.getD "conservative") : ℕ) : ℚ)
            * (calculate_recovery_modifiers pf tf idata).total_modifier) := rfl
    rw [hfield]
    have := le_round1 (((lookup_base_weeks (idata.injury_type.getD "ACL")
        (idata.treatment.getD "conservative") (idata.severity.getD "conservative") : ℕ) : ℚ)
        * (calculate_recovery_modifiers pf tf idata).total_modifier)
    linarith
  · have hfield : (predict_recovery_timeline idata pf tf).confidence_intervals.range80.lower
        = round1 ((((lookup_base_weeks (idata.injury_type.getD "ACL")
            (idata.treatment.getD "conservative") (idata.severity.getD "conservative") : ℕ) : ℚ)
            * (calculate_recovery_modifiers pf tf idata).total_modifier)
          - 1.28 * ((((lookup_base_weeks (idata.injury_type.getD "ACL")
              (idata.treatment.getD "conservative") (idata.severity.getD "conservative") : ℕ) : ℚ)
              * (calculate_recovery_modifiers pf tf idata).total_modifier)
            * min (0.15 + modifier_uncertainty (calculate_recovery_modifiers pf tf idata)) 0.4)) :=
      rfl
    rw [hfield]
    apply round1_nonneg
    nlinarith
  · have hfield : (predict_recovery_timeline idata pf tf).confidence_intervals.range95.lower
        = round1 ((((lookup_base_weeks (idata.injury_type.getD "ACL")
            (idata.treatment.getD "conservative") (idata.severity.getD "conservative") : ℕ) : ℚ)
            * (calculate_recovery_modifiers pf tf idata).total_modifier)
          - 1.96 * ((((lookup_base_weeks (idata.injury_type.getD "ACL")
              (idata.treatment.getD "conservative") (idata.severity.getD "conservative") : ℕ) : ℚ)
              * (calculate_recovery_modifiers pf tf idata).total_modifier)
            * min (0.15 + modifier_uncertainty (calculate_recovery_modifiers pf tf idata)) 0.4)) :=
      rfl
    rw [hfield]
    apply round1_nonneg
    nlinarith

/-! ## C3 -/

/-- C3 counterexample: with the hop component missing and every other
component scoring 90, the code returns 63 = 90 × 0.70 — the missing
component is scored 0 at its full weight 0.30 — while the spec-modelled
renormalized weighted average of the remaining components is 90; so missing
components are not excluded from the numerator and denominator. -/
theorem c3_renormalization_counterexample :
    rts_composite_score none (some 90) (some 90) psychData90 injuryHistory90 = 63
      ∧ spec_renormalized_composite
          [(0.30, none), (0.25, some 90), (0.20, some 90), (0.15, some 90), (0.10, some 90)]
        = 90
      ∧ (comprehensive_rts_assessment none (some 90) (some 90) psychData90
          injuryHistory90 0).composite_score = 63
      ∧ (63 : ℚ) ≠ 90 := by
  have hp : psych_score psychData90 = 90 := by norm_num [psych_score, psychData90]
  have hi : injury_score injuryHistory90 = 90 := by norm_num [injury_score, injuryHistory90]
  have hc : rts_composite_score none (some 90) (some 90) psychData90 injuryHistory90 = 63 := by
    norm_num [rts_composite_score, hp, hi]
  refine ⟨hc, ?_, ?_, by norm_num⟩
  · simp only [spec_renormalized_composite, List.filterMap_cons, List.filterMap_nil,
      Option.map_some, Option.map_none, List.map_cons, List.map_nil, List.sum_cons,
      List.sum_nil]
    norm_num
  · have hfield : (comprehensive_rts_assessment none (some 90) (some 90) psychData90
        injuryHistory90 0).composite_score
        = round1 (rts_composite_score none (some 90) (some 90) psychData90 injuryHistory90) := rfl
    rw [hfield, hc, round1_eq_low 63 630 (by norm_num) (by norm_num)]
    norm_num

/-- C3 amended: a component missing from the input is treated as a score of
0 under its full weight — the whole assessment record for an absent hop
battery equals the record for a present hop score of 0, and the weights are
never renormalized (the composite is always the fixed 0.30/0.25/0.20/0.15/0.10
weighted sum, as `rts_composite_score` states). -/
theorem c3_missing_component_scored_zero (strength agility : Option ℚ)
    (p : PsychologicalData) (h : InjuryHistory) (now : ℕ) :
    comprehensive_rts_assessment none strength agility p h now
        = comprehensive_rts_assessment (some 0) strength agility p h now
      ∧ rts_composite_score none strength agility p h
        = rts_composite_score (some 0) strength agility p h :=
  ⟨rfl, rfl⟩

/-! ## C4 -/

/-- C4 counterexample: the checker output embeds the current clock in its
`assessment_date` field, so two calls with identical input records at
different times are not byte-identical (they differ in that field); the same
holds for the readiness assessment record. -/
theorem c4_idempotence_counterexample :
    check_exercise_contraindications emptyPatientProfile emptyExerciseData
        emptyExerciseInjuryData 0
      ≠ check_exercise_contraindications emptyPatientProfile emptyExerciseData
        emptyExerciseInjuryData 1
    ∧ comprehensive_rts_assessment none none none emptyPsychologicalData
        emptyInjuryHistory 0
      ≠ comprehensive_rts_assessment none none none emptyPsychologicalData
        emptyInjuryHistory 1 := by
  constructor
  · intro hEq
    have hd := congrArg ContraindicationCheck.assessment_date hEq
    exact absurd hd (by decide)
  · intro hEq
    have hd := congrArg RTSAssessment.assessment_date hEq
    exact absurd hd (by decide)

/-- C4 amended: the safety check and the readiness assessment are
deterministic in their decision content — every output field except the
embedded `assessment_date` timestamp is a pure function of the input record
alone, identical across calls at any two clock times; only the timestamp
field varies with the clock. -/
theorem c4_deterministic_up_to_timestamp
    (p : PatientProfile) (e : ExerciseData) (i : ExerciseInjuryData)
    (hop strength agility : Option ℚ) (pd : PsychologicalData) (ih : InjuryHistory)
    (t1 t2 : ℕ) :
    ((check_exercise_contraindications p e i t1).contraindications
        = (check_exercise_contraindications p e i t2).contraindications
      ∧ (check_exercise_contraindications p e i t1).safety_assessment
        = (check_exercise_contraindications p e i t2).safety_assessment
      ∧ (check_exercise_contraindications p e i t1).exercise_cleared
        = (check_exercise_contraindications p e i t2).exercise_cleared
      ∧ (check_exercise_contraindications p e i t1).requires_modification
        = (check_exercise_contraindications p e i t2).requires_modification)
    ∧ ((comprehensive_rts_assessment hop strength agility pd ih t1).composite_score
        = (comprehensive_rts_assessment hop strength agility pd ih t2).composite_score
      ∧ (comprehensive_rts_assessment hop strength agility pd ih t1).rts_recommendation
        = (comprehensive_rts_assessment hop strength agility pd ih t2).rts_recommendation
      ∧ (comprehensive_rts_assessment hop strength agility pd ih t1).risk_category
        = (comprehensive_rts_assessment hop strength agility pd ih t2).risk_category
      ∧ (comprehensive_rts_assessment hop strength agility pd ih t1).timeline
        = (comprehensive_rts_assessment hop strength agility pd ih t2).timeline
      ∧ (comprehensive_rts_assessment hop strength agility pd ih t1).color
        = (comprehensive_rts_assessment hop strength agility pd ih t2).color
      ∧ (comprehensive_rts_assessment hop strength agility pd ih t1).component_scores
        = (comprehensive_rts_assessment hop strength agility pd ih t2).component_scores
      ∧ (comprehensive_rts_assessment hop strength agility pd ih t1).limiting_factors
        = (comprehensive_rts_assessment hop strength agility pd ih t2).limiting_factors
      ∧ (comprehensive_rts_assessment hop strength agility pd ih t1).specific_recommendations
        = (comprehensive_rts_assessment hop strength agility pd ih t2).specific_recommendations) :=
  ⟨⟨rfl, rfl, rfl, rfl⟩, rfl, rfl, rfl, rfl, rfl, rfl, rfl, rfl⟩

/-! ## C9 -/

/-- C9 counterexample: the strength LSI is uncapped, so a 5:1 asymmetry
gives a strength component of 500, far outside [0, 100]; fed into the
composite assessment it is reported as component score 500 and drives the
composite to 138.5 > 100. -/
theorem c9_score_range_counterexample :
    (calculate_strength_testing_battery lopsidedStrengthData "ACL").composite_strength_index = 500
      ∧ ("Strength", (500 : ℚ)) ∈
          (comprehensive_rts_assessment none (some 500) none emptyPsychologicalData
            emptyInjuryHistory 0).component_scores
      ∧ (comprehensive_rts_assessment none (some 500) none emptyPsychologicalData
            emptyInjuryHistory 0).composite_score = 277/2
      ∧ ¬ (comprehensive_rts_assessment none (some 500) none emptyPsychologicalData
            emptyInjuryHistory 0).composite_score ≤ 100 := by
  have hp : psych_score emptyPsychologicalData = 50 := by
    norm_num [psych_score, emptyPsychologicalData]
  have hi : injury_score emptyInjuryHistory = 60 := by
    norm_num [injury_score, emptyInjuryHistory]
  have hc : rts_composite_score none (some 500) none emptyPsychologicalData
      emptyInjuryHistory = 277/2 := by
    norm_num [rts_composite_score, hp, hi]
  have hfield : (comprehensive_rts_assessment none (some 500) none emptyPsychologicalData
      emptyInjuryHistory 0).composite_score
      = round1 (rts_composite_score none (some 500) none emptyPsychologicalData
          emptyInjuryHistory) := rfl
  have hscore : (comprehensive_rts_assessment none (some 500) none emptyPsychologicalData
      emptyInjuryHistory 0).composite_score = 277/2 := by
    rw [hfield, hc, round1_eq_low (277/2) 1385 (by norm_num) (by norm_num)]
    norm_num
  refine ⟨?_, ?_, hscore, by rw [hscore]; norm_num⟩
  · have hstep : (strength_thresholds "ACL").foldl (strength_step lopsidedStrengthData)
        ([], 0, 0) = ([("knee_extension",
          { injured_strength := 500, uninjured_strength := 100,
            lsi := round1 (strength_lsi 500 100), threshold := 90,
            passed := decide ((90 : ℚ) ≤ strength_lsi 500 100) })], strength_lsi 500 100, 1) := by
      simp only [strength_thresholds, lopsidedStrengthData, List.foldl_cons, List.foldl_nil]
      unfold strength_step
      simp [List.lookup]
    have hb : (calculate_strength_testing_battery lopsidedStrengthData "ACL").composite_strength_index
        = round1 (strength_lsi 500 100 / 1) := by
      simp only [calculate_strength_testing_battery, hstep]
      norm_num
    rw [hb]
    have hlsi : strength_lsi 500 100 / 1 = 500 := by norm_num [strength_lsi]
    rw [hlsi, round1_eq_low 500 5000 (by norm_num) (by norm_num)]
    norm_num
  · have hlist : (comprehensive_rts_assessment none (some 500) none emptyPsychologicalData
        emptyInjuryHistory 0).component_scores
        = [("Hop Tests", round1 0), ("Strength", round1 500), ("Agility", round1 0),
           ("Psychological", round1 (psych_score emptyPsychologicalData)),
           ("Injury Factors", round1 (injury_score emptyInjuryHistory))] := rfl
    rw [hlist, round1_eq_low 500 5000 (by norm_num) (by norm_num)]
    norm_num

/-- C9 amended: component scores are not guaranteed to lie in [0, 100] (the
strength component is an uncapped LSI mean and the hop component is capped
only at 120); the composite score — the fixed weighted sum — lies in
[0, 100] exactly when the five component scores entering it do. -/
theorem c9_composite_bounds_amended (hop strength agility : Option ℚ)
    (p : PsychologicalData) (h : InjuryHistory)
    (h1 : 0 ≤ hop.getD 0) (h2 : hop.getD 0 ≤ 100)
    (h3 : 0 ≤ strength.getD 0) (h4 : strength.getD 0 ≤ 100)
    (h5 : 0 ≤ agility.getD 0) (h6 : agility.getD 0 ≤ 100)
    (h7 : 0 ≤ psych_score p) (h8 : psych_score p ≤ 100)
    (h9 : 0 ≤ injury_score h) (h10 : injury_score h ≤ 100) :
    0 ≤ rts_composite_score hop strength agility p h
      ∧ rts_composite_score hop strength agility p h ≤ 100
      ∧ 0 ≤ (comprehensive_rts_assessment hop strength agility p h 0).composite_score
      ∧ (comprehensive_rts_assessment hop strength agility p h 0).composite_score ≤ 100 := by
  have hlo : 0 ≤ rts_composite_score hop strength agility p h := by
    unfold rts_composite_score
    nlinarith
  have hhi : rts_composite_score hop strength agility p h ≤ 100 := by
    unfold rts_composite_score
    nlinarith
  have hfield : (comprehensive_rts_assessment hop strength agility p h 0).composite_score
      = round1 (rts_composite_score hop strength agility p h) := rfl
  refine ⟨hlo, hhi, ?_, ?_⟩
  · rw [hfield]
    exact round1_nonneg _ hlo
  · rw [hfield]
    exact round1_le_hundred _ hhi

/-- C9 witness: the composite bound at the all-defaults input (every battery
absent, psychological factors defaulting to 50, injury history defaulting to
a score of 60). -/
theorem c9_composite_bounds_amended_witness :
    0 ≤ rts_composite_score none none none emptyPsychologicalData emptyInjuryHistory
      ∧ rts_composite_score none none none emptyPsychologicalData emptyInjuryHistory ≤ 100
      ∧ 0 ≤ (comprehensive_rts_assessment none none none emptyPsychologicalData
          emptyInjuryHistory 0).composite_score
      ∧ (comprehensive_rts_assessment none none none emptyPsychologicalData
          emptyInjuryHistory 0).composite_score ≤ 100 :=
  c9_composite_bounds_amended none none none emptyPsychologicalData emptyInjuryHistory
    (by norm_num) (by norm_num) (by norm_num) (by norm_num) (by norm_num) (by norm_num)
    (by norm_num [psych_score, emptyPsychologicalData])
    (by norm_num [psych_score, emptyPsychologicalData])
    (by norm_num [injury_score, emptyInjuryHistory])
    (by norm_num [injury_score, emptyInjuryHistory])

/-! ## C10 -/

/-- C10: for injury type "ACL", a pain score above the early-phase pain
threshold (4) forces the phase "Early" regardless of LSI, rate of force
development and peak force; the spec scenario limbSymmetryIndex = 60,
painScore = 6 is an instance. -/
theorem c10_high_pain_forces_early (peak_force lsi rfd pain : ℚ) (hpain : 4 < pain) :
    (get_rehab_phase "ACL" peak_force lsi rfd pain).phase = "Early" := by
  unfold get_rehab_phase
  simp [injury_thresholds, hpain]

/-- C10 witness: limbSymmetryIndex = 60, painScore = 6 for "ACL" yields the
phase "Early" for arbitrary fixed RFD and peak force. -/
theorem c10_high_pain_forces_early_witness :
    (4 : ℚ) < 6 ∧ (get_rehab_phase "ACL" 0 60 0 6).phase = "Early" :=
  ⟨by norm_num, c10_high_pain_forces_early 0 60 0 6 (by norm_num)⟩

end Rehab
